import Mathlib

/-!
Shallow embedding of the RouterService facade from
packages/ember-routing/lib/services/router.js, together with models of the
helpers it imports from ../utils (resemblesURL, extractRouteArgs,
shallowEqual) and of the external router collaborators it delegates to.
The helper module and the external router are not part of the embedded
source file, so those definitions are modelled from the specification text
and are marked as such in their doc comments.
-/

/-- Primitive query-parameter values: strings, numbers, booleans, null,
undefined, and the reserved use-default sentinel recognised by the external
URL-generation primitive. -/
inductive Prim where
  | str : String → Prim
  | num : Int → Prim
  | boolean : Bool → Prim
  | null : Prim
  | undef : Prim
  | defaultSentinel : Prim
deriving DecidableEq, Repr

/-- Query-parameter values are primitives or arrays of primitives; equality
on arrays is element-wise (shallow), matching the data model of the spec. -/
inductive QPValue where
  | prim : Prim → QPValue
  | arr : List Prim → QPValue
deriving DecidableEq, Repr

/-- Query-parameter maps: string keys to values, as an association list. -/
abbrev QPMap := List (String × QPValue)

/-- Plain JavaScript mapping appearing in an argument list. The only shape
inspected by the code is whether it owns a queryParams key; other fields are
opaque payload. -/
structure JSObject where
  queryParams : Option QPMap
  rest : List (String × QPValue)
deriving DecidableEq, Repr

/-- Arguments of the variadic facade calls: a string (route name or URL), a
plain mapping (candidate options hash or model), an opaque model identifier,
or undefined. -/
inductive Arg where
  | str : String → Arg
  | obj : JSObject → Arg
  | opaqueModel : Nat → Arg
  | undef : Arg
deriving DecidableEq, Repr

/-- Association-list lookup on a query-parameter map, first binding wins
(JavaScript objects have unique keys). -/
def qpLookup (m : QPMap) (k : String) : Option QPValue :=
  match m with
  | [] => none
  | kv :: tl => if kv.1 = k then some kv.2 else qpLookup tl k

/-- Keys of a query-parameter map. -/
def qpKeys (m : QPMap) : List String := m.map Prod.fst

/-- Modelled from the spec: shallowEqual from ember-routing/lib/utils is
imported by the source file but its module is not part of the embedded
sources. Two mappings are equivalent iff they have the same set of keys
and, for each key, the same value under primitive/array-shallow
comparison. -/
def shallowEqual (a b : QPMap) : Bool :=
  (a.all fun kv => qpLookup a kv.1 == qpLookup b kv.1) &&
  (b.all fun kv => qpLookup a kv.1 == qpLookup b kv.1)

/-- Modelled from the spec: resemblesURL from ember-routing/lib/utils is
imported by the source file but its module is not part of the embedded
sources. A string resembles a URL when it starts with a slash or a hash
mark; the scheme-relative double-slash form also starts with a slash.
Non-string arguments never resemble a URL. -/
def resemblesURL (a : Arg) : Bool :=
  match a with
  | Arg.str s =>
    match s.data with
    | [] => false
    | c :: _ => c == '/' || c == '#'
  | _ => false

/-- Structured route request produced by argument normalization. -/
structure ExtractedArgs where
  routeName : Arg
  models : List Arg
  queryParams : QPMap
deriving DecidableEq, Repr

/-- Modelled from the spec: extractRouteArgs from ember-routing/lib/utils is
imported by the source file but its module is not part of the embedded
sources. If the last element of the argument list is a plain mapping owning
a queryParams key, it is removed and its queryParams value becomes the
query-parameter map; otherwise the map is empty. The first remaining
element is the route name and the rest are the models. -/
def extractRouteArgs (args : List Arg) : ExtractedArgs :=
  let stripped : List Arg × QPMap :=
    match args.getLast? with
    | some (Arg.obj o) =>
      match o.queryParams with
      | some qp => (args.dropLast, qp)
      | none => (args, [])
    | _ => (args, [])
  ⟨stripped.1.headD Arg.undef, stripped.1.tail, stripped.2⟩

/-- Reconstruction of a variadic call from a structured route request: the
route name, then the models, then an options hash carrying the
query-parameter map. -/
def reconstructCall (e : ExtractedArgs) : List Arg :=
  e.routeName :: e.models ++ [Arg.obj ⟨some e.queryParams, []⟩]

/-- Modelled from the spec: the Transition handle is externally owned and
opaque; the core only sets an urlMethod (normal versus replace) and a flag
saying default query-parameter values are preserved rather than recomputed.
The payload field stands for everything else inside the handle. -/
structure Transition where
  payload : Nat
  urlMethod : Option String
  _keepDefaultQueryParamValues : Bool
deriving DecidableEq, Repr

/-- Modelled from the spec: calling method m on a Transition mutates its
method (normal versus replace) and returns the same handle. -/
def Transition.method (t : Transition) (m : String) : Transition :=
  { t with urlMethod := some m }

/-- Record of one call made to an external collaborator, used to state
which primitives a facade method invokes and with which arguments. -/
inductive ExtCall where
  | callDoURLTransition : String → Arg → ExtCall
  | callDoTransition : Arg → List Arg → QPMap → Bool → ExtCall
  | callGenerate : List Arg → ExtCall
  | callIsActiveIntent : Arg → List Arg → ExtCall
  | callPrepareQueryParams : Arg → List Arg → QPMap → Bool → ExtCall
deriving DecidableEq, Repr

/-- Modelled from the spec: the external resolver/router collaborators the
facade delegates to, as opaque function fields. The in-place mutation that
_prepareQueryParams performs on the query-parameter map it is handed is
modelled by returning the new contents of that map. stateQueryParams is
the resolved query-parameter set of the currently settled navigational
state, read from the microlib state. -/
structure ExternalRouter where
  _doURLTransition : String → Arg → Transition
  _doTransition : Arg → List Arg → QPMap → Bool → Transition
  generate : List Arg → String
  isActiveIntent : Arg → List Arg → Option Unit → Bool
  _prepareQueryParams : Arg → List Arg → QPMap → Bool → QPMap
  stateQueryParams : QPMap

/-- Calls that hand a navigation request to the external transition engine;
by the spec these are the only collaborator calls that create a Transition
or change navigational state (generate, isActiveIntent and
_prepareQueryParams are read-only with respect to navigational state). -/
def initiatesTransition : ExtCall → Bool
  | ExtCall.callDoURLTransition _ _ => true
  | ExtCall.callDoTransition _ _ _ _ => true
  | _ => false

/-- Calls that delegate to the URL-based transition primitive. -/
def isURLTransitionCall : ExtCall → Bool
  | ExtCall.callDoURLTransition _ _ => true
  | _ => false

/-- Embedding of RouterService.transitionTo: classify the first argument;
a URL delegates to _doURLTransition unchanged, otherwise the arguments are
normalized and handed to _doTransition with the from-facade flag, and the
returned Transition gets its keep-default-query-params flag set. The
second component records the collaborator calls made. -/
def transitionTo (r : ExternalRouter) (args : List Arg) : Transition × List ExtCall :=
  if resemblesURL (args.headD Arg.undef) then
    (r._doURLTransition "transitionTo" (args.headD Arg.undef),
     [ExtCall.callDoURLTransition "transitionTo" (args.headD Arg.undef)])
  else
    let e := extractRouteArgs args
    let transition := r._doTransition e.routeName e.models e.queryParams true
    ({ transition with _keepDefaultQueryParamValues := true },
     [ExtCall.callDoTransition e.routeName e.models e.queryParams true])

/-- Embedding of RouterService.replaceWith: delegate to transitionTo with
the same arguments and set the method of the returned Transition to
replace. -/
def replaceWith (r : ExternalRouter) (args : List Arg) : Transition × List ExtCall :=
  let t := transitionTo r args
  (t.1.method "replace", t.2)

/-- Embedding of RouterService.urlFor: forward the full argument list to
the external generate primitive. -/
def urlFor (r : ExternalRouter) (args : List Arg) : String × List ExtCall :=
  (r.generate args, [ExtCall.callGenerate args])

/-- Body of RouterService.isActive on an already extracted route request.
Returns the boolean result, the final contents of the caller-supplied
query-parameter map (which _prepareQueryParams mutates in place when it is
consulted), and the collaborator calls made. -/
def isActiveFromExtracted (r : ExternalRouter) (e : ExtractedArgs) :
    Bool × QPMap × List ExtCall :=
  if !(r.isActiveIntent e.routeName e.models none) then
    (false, e.queryParams, [ExtCall.callIsActiveIntent e.routeName e.models])
  else if 0 < e.queryParams.length then
    let prepared := r._prepareQueryParams e.routeName e.models e.queryParams true
    (shallowEqual prepared r.stateQueryParams, prepared,
     [ExtCall.callIsActiveIntent e.routeName e.models,
      ExtCall.callPrepareQueryParams e.routeName e.models e.queryParams true])
  else
    (true, e.queryParams, [ExtCall.callIsActiveIntent e.routeName e.models])

/-- Embedding of RouterService.isActive: extract the route request, check
the structural active intent, and when the query-parameter map is
non-empty reconcile it via _prepareQueryParams and compare shallowly with
the settled state. -/
def isActive (r : ExternalRouter) (args : List Arg) : Bool × QPMap × List ExtCall :=
  isActiveFromExtracted r (extractRouteArgs args)

/-- Concrete external router used to exercise the facade on sample
inputs. -/
def sampleRouter : ExternalRouter where
  _doURLTransition := fun _ _ => ⟨1, none, false⟩
  _doTransition := fun _ _ _ _ => ⟨2, none, false⟩
  generate := fun _ => "/generated"
  isActiveIntent := fun _ _ _ => true
  _prepareQueryParams := fun _ _ qp _ => qp
  stateQueryParams := [("page", QPValue.prim (Prim.num 1))]

/-- Modelled from the spec: the query pairs the external URL-generation
primitive includes in the generated URL. Every key of the supplied
query-parameter map appears literally, regardless of whether its value
equals a controller default, except that a key whose value is the reserved
use-default sentinel is omitted. -/
def generateQueryPairs (qp : QPMap) : QPMap :=
  qp.filter fun kv => !(kv.2 == QPValue.prim Prim.defaultSentinel)

/-- Textual rendering of a primitive value inside a generated URL. -/
def renderPrim : Prim → String
  | Prim.str s => s
  | Prim.num n => toString n
  | Prim.boolean b => toString b
  | Prim.null => "null"
  | Prim.undef => "undefined"
  | Prim.defaultSentinel => ""

/-- Textual rendering of a query-parameter value inside a generated URL. -/
def renderQPValue : QPValue → String
  | QPValue.prim p => renderPrim p
  | QPValue.arr ps => String.intercalate "," (ps.map renderPrim)

/-- Rendering of a query-pair list as the query part of a URL. -/
def renderQuery (qp : QPMap) : String :=
  match qp with
  | [] => ""
  | _ => "?" ++ String.intercalate "&" (qp.map fun kv => kv.1 ++ "=" ++ renderQPValue kv.2)

/-- Textual rendering of one call argument inside a generated URL path. -/
def renderArg : Arg → String
  | Arg.str s => s
  | Arg.obj _ => "object"
  | Arg.opaqueModel n => toString n
  | Arg.undef => "undefined"

/-- Path part of a generated URL, from the route name and the models. -/
def routerBase (e : ExtractedArgs) : String :=
  "/" ++ renderArg e.routeName ++
    (e.models.map fun m => "/" ++ renderArg m).foldr (fun x y => x ++ y) ""

/-- Modelled from the spec: the external resolver generate primitive,
which the source reaches as a method of the injected router. It turns the
full argument list into a URL string: a path from the route name and the
models, followed by the query pairs of generateQueryPairs. -/
def routerGenerate (args : List Arg) : String :=
  let e := extractRouteArgs args
  routerBase e ++ renderQuery (generateQueryPairs e.queryParams)

/-- Concrete external router whose structural active-intent check fails. -/
def inactiveRouter : ExternalRouter :=
  { sampleRouter with isActiveIntent := fun _ _ _ => false }

/-- Concrete external router whose query-parameter preparation step writes
the reconciled current value for the page parameter into the map it is
handed, as the external interface contract describes. -/
def reconcilingRouter : ExternalRouter :=
  { sampleRouter with
    _prepareQueryParams := fun _ _ _ _ => [("page", QPValue.prim (Prim.num 1))] }

/-- Concrete isActive call carrying a non-empty query-parameter map whose
page value differs from the reconciled current value. -/
def mutationArgs : List Arg :=
  [Arg.str "blog", Arg.obj ⟨some [("page", QPValue.prim (Prim.num 0))], []⟩]

/-- Concrete isActive call whose query-parameter map already matches the
settled state of sampleRouter. -/
def matchingArgs : List Arg :=
  [Arg.str "blog", Arg.obj ⟨some [("page", QPValue.prim (Prim.num 1))], []⟩]

/-- Association lookup that yields some value exactly for the keys of the
map: a successful lookup exhibits a member pair with that key. -/
theorem qpLookup_isSome_mem (m : QPMap) (k : String) (v : QPValue)
    (h : qpLookup m k = some v) : ∃ kv, kv ∈ m ∧ kv.1 = k := by
  induction m with
  | nil => simp [qpLookup] at h
  | cons hd tl ih =>
    rw [qpLookup] at h
    by_cases hk : hd.1 = k
    · exact ⟨hd, List.mem_cons_self hd tl, hk⟩
    · simp only [hk, if_false] at h
      obtain ⟨kv, hm, he⟩ := ih h
      exact ⟨kv, List.mem_cons_of_mem hd hm, he⟩

/-- Characterization of the shallow equivalence checker: two maps are
shallow-equal exactly when every key looks up to the same value in both,
which is the same as having the same key set and, for each key, the same
value. -/
theorem shallowEqual_iff (a b : QPMap) :
    shallowEqual a b = true ↔ ∀ k, qpLookup a k = qpLookup b k := by
  constructor
  · intro h k
    rw [shallowEqual, Bool.and_eq_true, List.all_eq_true, List.all_eq_true] at h
    obtain ⟨ha, hb⟩ := h
    cases hva : qpLookup a k with
    | some v =>
      obtain ⟨kv, hm, he⟩ := qpLookup_isSome_mem a k v hva
      have hkv := ha kv hm
      rw [beq_iff_eq, he, hva] at hkv
      exact hkv
    | none =>
      cases hvb : qpLookup b k with
      | some w =>
        obtain ⟨kv, hm, he⟩ := qpLookup_isSome_mem b k w hvb
        have hkv := hb kv hm
        rw [beq_iff_eq, he, hva, hvb] at hkv
        exact hkv
      | none => rfl
  · intro h
    rw [shallowEqual, Bool.and_eq_true, List.all_eq_true, List.all_eq_true]
    constructor
    · intro kv _
      rw [beq_iff_eq]
      exact h kv.1
    · intro kv _
      rw [beq_iff_eq]
      exact h kv.1

/-- Sanity of the URL classifier on the examples listed among the testable
properties: slash, hash and scheme-relative forms resemble URLs, plain and
dot-separated route names do not. -/
theorem resemblesURL_examples :
    resemblesURL (Arg.str "/about") = true
  ∧ resemblesURL (Arg.str "#/about") = true
  ∧ resemblesURL (Arg.str "//cdn/x") = true
  ∧ resemblesURL (Arg.str "about") = false
  ∧ resemblesURL (Arg.str "blog.post") = false := by
  refine ⟨?_, ?_, ?_, ?_, ?_⟩ <;> decide

/-- C1: transitionTo dispatches on its first argument exactly once. A
URL-like first argument is handed unchanged to the URL-based transition
primitive with kind transitionTo, bypassing argument normalization, and
that primitive is the only collaborator call made. Any other argument
list is normalized and handed, in a single collaborator call, to the
name-based transition primitive with the extracted route name, models,
query parameters, and the from-facade flag set to true. -/
theorem transitionTo_dispatch (r : ExternalRouter) (args : List Arg) :
    (resemblesURL (args.headD Arg.undef) = true →
      transitionTo r args =
        (r._doURLTransition "transitionTo" (args.headD Arg.undef),
         [ExtCall.callDoURLTransition "transitionTo" (args.headD Arg.undef)]))
  ∧ (resemblesURL (args.headD Arg.undef) = false →
      transitionTo r args =
        ({ r._doTransition (extractRouteArgs args).routeName (extractRouteArgs args).models
            (extractRouteArgs args).queryParams true with
            _keepDefaultQueryParamValues := true },
         [ExtCall.callDoTransition (extractRouteArgs args).routeName
            (extractRouteArgs args).models (extractRouteArgs args).queryParams true])) := by
  constructor <;> intro h <;> unfold transitionTo <;> rw [h] <;> simp

/-- Witness for C1 at a URL first argument and at a route-name first
argument. -/
theorem transitionTo_dispatch_check :
    transitionTo sampleRouter [Arg.str "/blog"] =
      (sampleRouter._doURLTransition "transitionTo" (Arg.str "/blog"),
       [ExtCall.callDoURLTransition "transitionTo" (Arg.str "/blog")])
  ∧ transitionTo sampleRouter [Arg.str "blog.index"] =
      ({ sampleRouter._doTransition (extractRouteArgs [Arg.str "blog.index"]).routeName
          (extractRouteArgs [Arg.str "blog.index"]).models
          (extractRouteArgs [Arg.str "blog.index"]).queryParams true with
          _keepDefaultQueryParamValues := true },
       [ExtCall.callDoTransition (extractRouteArgs [Arg.str "blog.index"]).routeName
          (extractRouteArgs [Arg.str "blog.index"]).models
          (extractRouteArgs [Arg.str "blog.index"]).queryParams true]) :=
  ⟨(transitionTo_dispatch sampleRouter [Arg.str "/blog"]).1 (by decide),
   (transitionTo_dispatch sampleRouter [Arg.str "blog.index"]).2 (by decide)⟩

/-- C4: on the name-based branch, the Transition returned by transitionTo
has its keep-default-query-param-values flag set to true. -/
theorem transitionTo_keepDefaults (r : ExternalRouter) (args : List Arg)
    (h : resemblesURL (args.headD Arg.undef) = false) :
    (transitionTo r args).1._keepDefaultQueryParamValues = true := by
  unfold transitionTo
  rw [h]
  simp

/-- Witness for C4 at a route-name first argument. -/
theorem transitionTo_keepDefaults_check :
    (transitionTo sampleRouter [Arg.str "blog.index"]).1._keepDefaultQueryParamValues = true :=
  transitionTo_keepDefaults sampleRouter [Arg.str "blog.index"] (by decide)

/-- C5: replaceWith delegates to transitionTo with identical arguments,
makes exactly the same collaborator calls, and returns the same Transition
except that its method is set to replace; payload and the
keep-default-query-param-values flag are unchanged. -/
theorem replaceWith_delegates (r : ExternalRouter) (args : List Arg) :
    replaceWith r args = ((transitionTo r args).1.method "replace", (transitionTo r args).2)
  ∧ (replaceWith r args).1.urlMethod = some "replace"
  ∧ (replaceWith r args).1.payload = (transitionTo r args).1.payload
  ∧ (replaceWith r args).1._keepDefaultQueryParamValues =
      (transitionTo r args).1._keepDefaultQueryParamValues :=
  ⟨rfl, rfl, rfl, rfl⟩

/-- C6: when the structural active-intent check (called with the extracted
route name, the models, and the reserved null third argument) fails,
isActive returns false, the caller-supplied query-parameter map is left
as extracted, and the intent check is the only collaborator call made, so
query parameters are never consulted. -/
theorem isActive_failsClosed (r : ExternalRouter) (args : List Arg)
    (h : r.isActiveIntent (extractRouteArgs args).routeName
          (extractRouteArgs args).models none = false) :
    isActive r args =
      (false, (extractRouteArgs args).queryParams,
       [ExtCall.callIsActiveIntent (extractRouteArgs args).routeName
          (extractRouteArgs args).models]) := by
  simp [isActive, isActiveFromExtracted, h]

/-- Witness for C6 with a router whose intent check rejects. -/
theorem isActive_failsClosed_check :
    isActive inactiveRouter [Arg.str "blog", Arg.opaqueModel 3] =
      (false, (extractRouteArgs [Arg.str "blog", Arg.opaqueModel 3]).queryParams,
       [ExtCall.callIsActiveIntent
          (extractRouteArgs [Arg.str "blog", Arg.opaqueModel 3]).routeName
          (extractRouteArgs [Arg.str "blog", Arg.opaqueModel 3]).models]) :=
  isActive_failsClosed inactiveRouter [Arg.str "blog", Arg.opaqueModel 3] (by decide)

/-- C7: when the extracted query-parameter map is empty, isActive returns
exactly the result of the structural intent check, and the intent check is
the only collaborator call made: neither the preparation step nor the
settled query-parameter state is consulted. -/
theorem isActive_emptyQueryParams (r : ExternalRouter) (args : List Arg)
    (h : (extractRouteArgs args).queryParams = []) :
    isActive r args =
      (r.isActiveIntent (extractRouteArgs args).routeName
         (extractRouteArgs args).models none,
       (extractRouteArgs args).queryParams,
       [ExtCall.callIsActiveIntent (extractRouteArgs args).routeName
          (extractRouteArgs args).models]) := by
  unfold isActive isActiveFromExtracted
  cases hi : r.isActiveIntent (extractRouteArgs args).routeName
      (extractRouteArgs args).models none with
  | false => simp
  | true => simp [h]

/-- Witness for C7 at a call with no options hash. -/
theorem isActive_emptyQueryParams_check :
    isActive sampleRouter [Arg.str "blog"] =
      (sampleRouter.isActiveIntent (extractRouteArgs [Arg.str "blog"]).routeName
         (extractRouteArgs [Arg.str "blog"]).models none,
       (extractRouteArgs [Arg.str "blog"]).queryParams,
       [ExtCall.callIsActiveIntent (extractRouteArgs [Arg.str "blog"]).routeName
          (extractRouteArgs [Arg.str "blog"]).models]) :=
  isActive_emptyQueryParams sampleRouter [Arg.str "blog"] (by decide)

/-- C2: with a non-empty query-parameter map and a successful structural
match, isActive returns true exactly when the map, as reconciled by the
preparation step in facade-originated mode, is shallow-equal to the
settled navigational state resolved query-parameter set: same key set
and, for each key, the same value. -/
theorem isActive_queryParams_iff (r : ExternalRouter) (args : List Arg)
    (hi : r.isActiveIntent (extractRouteArgs args).routeName
           (extractRouteArgs args).models none = true)
    (hq : (extractRouteArgs args).queryParams ≠ []) :
    ((isActive r args).1 = true ↔
      ∀ k, qpLookup (r._prepareQueryParams (extractRouteArgs args).routeName
              (extractRouteArgs args).models (extractRouteArgs args).queryParams true) k
        = qpLookup r.stateQueryParams k) := by
  unfold isActive isActiveFromExtracted
  have hlen : 0 < (extractRouteArgs args).queryParams.length := List.length_pos.mpr hq
  simp [hi, hlen, shallowEqual_iff]

/-- Witness for C2 at a matching query-parameter map. -/
theorem isActive_queryParams_iff_check :
    (isActive sampleRouter matchingArgs).1 = true ↔
      ∀ k, qpLookup (sampleRouter._prepareQueryParams
              (extractRouteArgs matchingArgs).routeName
              (extractRouteArgs matchingArgs).models
              (extractRouteArgs matchingArgs).queryParams true) k
        = qpLookup sampleRouter.stateQueryParams k :=
  isActive_queryParams_iff sampleRouter matchingArgs (by decide) (by decide)

/-- Counterexample to C3: isActive does not leave the caller-supplied
query-parameter map unchanged. With a router whose preparation step
reconciles the page parameter to the current value 1, a call supplying
page 0 finds its map holding page 1 after the call. -/
theorem isActive_mutatesCallerMap :
    (isActive reconcilingRouter mutationArgs).2.1 ≠
      (extractRouteArgs mutationArgs).queryParams := by
  decide

/-- C3 amended: isActive makes no collaborator call that creates a
Transition or changes navigational state; however, the caller-supplied
query-parameter map is left unchanged only when it is empty or the
structural match fails, and otherwise it is mutated in place to the
reconciled values produced by the preparation step. -/
theorem isActive_effects (r : ExternalRouter) (args : List Arg) :
    ((isActive r args).2.2.all fun c => !(initiatesTransition c)) = true
  ∧ (isActive r args).2.1 =
      (if r.isActiveIntent (extractRouteArgs args).routeName
            (extractRouteArgs args).models none = true
          ∧ (extractRouteArgs args).queryParams ≠ []
       then r._prepareQueryParams (extractRouteArgs args).routeName
              (extractRouteArgs args).models (extractRouteArgs args).queryParams true
       else (extractRouteArgs args).queryParams) := by
  unfold isActive isActiveFromExtracted
  cases hi : r.isActiveIntent (extractRouteArgs args).routeName
      (extractRouteArgs args).models none with
  | false => simp [initiatesTransition]
  | true =>
    by_cases hq : (extractRouteArgs args).queryParams = []
    · simp [hq, initiatesTransition]
    · have hlen : 0 < (extractRouteArgs args).queryParams.length := List.length_pos.mpr hq
      simp [hq, hlen, initiatesTransition]

/-- C8: isActive and urlFor treat their first argument as a logical route
name, never as a URL. urlFor forwards the unmodified argument list to the
generate primitive, isActive factors through argument extraction alone,
and neither ever makes a call to the URL-based transition primitive,
whatever the first argument starts with. -/
theorem isActive_urlFor_nameOnly (r : ExternalRouter) (args : List Arg) :
    urlFor r args = (r.generate args, [ExtCall.callGenerate args])
  ∧ isActive r args = isActiveFromExtracted r (extractRouteArgs args)
  ∧ ((urlFor r args).2.all fun c => !(isURLTransitionCall c)) = true
  ∧ ((isActive r args).2.2.all fun c => !(isURLTransitionCall c)) = true := by
  refine ⟨rfl, rfl, rfl, ?_⟩
  unfold isActive isActiveFromExtracted
  cases hi : r.isActiveIntent (extractRouteArgs args).routeName
      (extractRouteArgs args).models none with
  | false => simp [isURLTransitionCall]
  | true =>
    by_cases hq : 0 < (extractRouteArgs args).queryParams.length
    · simp [hq, isURLTransitionCall]
    · simp [hq, isURLTransitionCall]

/-- C9: urlFor returns exactly the result of forwarding the full,
unmodified argument list to the generate primitive of the external
resolver, and the query pairs of a generated URL contain a key exactly
when the supplied map holds it with a value other than the use-default
sentinel; the sentinel-valued keys are omitted and every other key appears
regardless of any defaults. -/
theorem urlFor_forwards :
    (∀ (r : ExternalRouter) (args : List Arg),
      urlFor r args = (r.generate args, [ExtCall.callGenerate args]))
  ∧ (∀ (args : List Arg),
      routerGenerate args =
        routerBase (extractRouteArgs args) ++
          renderQuery (generateQueryPairs (extractRouteArgs args).queryParams))
  ∧ (∀ (qp : QPMap) (k : String),
      k ∈ qpKeys (generateQueryPairs qp) ↔
        ∃ v, (k, v) ∈ qp ∧ v ≠ QPValue.prim Prim.defaultSentinel) := by
  refine ⟨fun r args => rfl, fun args => rfl, fun qp k => ?_⟩
  simp only [qpKeys, generateQueryPairs, List.mem_map, List.mem_filter,
    Bool.not_eq_eq_eq_not, Bool.not_true, beq_eq_false_iff_ne, ne_eq]
  constructor
  · rintro ⟨kv, ⟨hm, hv⟩, hk⟩
    exact ⟨kv.2, by rw [← hk]; exact hm, hv⟩
  · rintro ⟨v, hm, hv⟩
    exact ⟨(k, v), ⟨hm, hv⟩, rfl⟩

/-- C10: argument normalization treats the last argument as an options
hash exactly when it is a plain mapping owning a queryParams key, in which
case that mapping is removed and its queryParams value is extracted; a
mapping without the key, or a non-mapping final argument, stays among the
models and the extracted query-parameter map is empty; and extraction
round-trips with call reconstruction, so normalizing a reconstructed call
returns the same route name, models and query-parameter map. -/
theorem extractRouteArgs_normalization (rn : Arg) (ms : List Arg) (qp : QPMap)
    (flds other : List (String × QPValue)) (s : String) :
    extractRouteArgs (rn :: ms ++ [Arg.obj ⟨some qp, flds⟩]) = ⟨rn, ms, qp⟩
  ∧ extractRouteArgs (rn :: ms ++ [Arg.obj ⟨none, other⟩]) =
      ⟨rn, ms ++ [Arg.obj ⟨none, other⟩], []⟩
  ∧ extractRouteArgs (rn :: ms ++ [Arg.str s]) = ⟨rn, ms ++ [Arg.str s], []⟩
  ∧ ∀ e : ExtractedArgs, extractRouteArgs (reconstructCall e) = e := by
  have hcons : ∀ (x : Arg), rn :: ms ++ [x] = (rn :: ms) ++ [x] := fun x => by simp
  refine ⟨?_, ?_, ?_, ?_⟩
  · unfold extractRouteArgs
    rw [hcons, List.getLast?_concat, List.dropLast_concat]
    simp
  · unfold extractRouteArgs
    rw [hcons, List.getLast?_concat]
    simp
  · unfold extractRouteArgs
    rw [hcons, List.getLast?_concat]
    simp
  · intro e
    obtain ⟨ern, ems, eqp⟩ := e
    have hc : ern :: ems ++ [Arg.obj ⟨some eqp, []⟩] =
        (ern :: ems) ++ [Arg.obj ⟨some eqp, []⟩] := by simp
    unfold reconstructCall extractRouteArgs
    rw [hc, List.getLast?_concat, List.dropLast_concat]
    simp
